import Mathlib

/-
Verification of the olwebrtc call orchestrator against its natural-language
specification.  The definitions below are a shallow embedding of the
TypeScript sources (src/webrtc-call.ts, src/bitrate.ts, src/errors.ts):
pure functions become Lean functions, the mutable WebRTCCall object becomes
an explicit CallState threaded through handler functions, and observable
actions (signaling sends, emitter events, host calls) become an explicit
Effect list returned by each handler.  JavaScript numbers are embedded as
exact integers, with the division-by-zero special values (NaN, Infinity)
made explicit in the JSNum type.
-/

namespace OlWebRTC

/-! ## JavaScript number results

The bitrate computation in src/bitrate.ts divides by a timestamp delta that
can be zero; JavaScript then yields NaN (0/0) or a signed Infinity (x/0).
JSNum embeds the possible results of that computation exactly. -/

inductive JSNum where
  | num (z : ℤ)
  | nan
  | inf
  | ninf
  deriving DecidableEq, Repr

/-- Embedding of Math.floor(a / b) on JavaScript numbers for integral a, b:
division by zero produces NaN when the numerator is zero and a signed
Infinity otherwise (Math.floor is the identity on those); otherwise the
result is the floor of the exact rational quotient, which Int.fdiv
computes. -/
def jsFloorDiv (a b : ℤ) : JSNum :=
  if b = 0 then
    if a = 0 then .nan else if 0 < a then .inf else .ninf
  else
    .num (Int.fdiv a b)

/-- Embedding of JavaScript subtraction restricted to the shapes produced by
the bitrate sampler (finite minus finite, with the special values
propagating as in IEEE arithmetic). -/
def jsSub (a b : JSNum) : JSNum :=
  match a, b with
  | .num x, .num y => .num (x - y)
  | .nan, _ => .nan
  | _, .nan => .nan
  | .inf, .inf => .nan
  | .inf, _ => .inf
  | .ninf, .ninf => .nan
  | .ninf, _ => .ninf
  | .num _, .inf => .ninf
  | .num _, .ninf => .inf

/-- Embedding of the JavaScript comparison x < c for a JSNum x and an
integer constant c: NaN compares false, -Infinity compares true. -/
def jsLtInt (a : JSNum) (c : ℤ) : Bool :=
  match a with
  | .num x => x < c
  | .nan => false
  | .inf => false
  | .ninf => true

/-! ## Bitrate sampler (src/bitrate.ts) -/

/-- Retained per-channel sample: the most recent bytes/timestamp pair
(interface StatRecord, src/bitrate.ts lines 8-11). -/
structure StatRecord where
  bytes : ℤ
  timestamp : ℤ
  deriving DecidableEq, Repr

/-- Report type tag of an RTC statistics report (only the two tags the
switch in Bitrate.find inspects are distinguished). -/
inductive ReportType where
  | inboundRtp
  | outboundRtp
  | other
  deriving DecidableEq, Repr

/-- Media type tag of an RTC statistics report. -/
inductive MediaType where
  | video
  | audio
  | other
  deriving DecidableEq, Repr

/-- One RTC statistics report as read by Bitrate.find: bytesSent and
bytesReceived may be absent (the source applies "|| 0"). -/
structure Report where
  type : ReportType
  mediaType : MediaType
  bytesSent : Option ℤ
  bytesReceived : Option ℤ
  timestamp : ℤ
  deriving DecidableEq, Repr

/-- Mutable fields of the Bitrate class instance (src/bitrate.ts lines
14-18): the retained previous sample for each of the four channels. -/
structure BitrateState where
  inputAudioStats : Option StatRecord
  outputVideoStats : Option StatRecord
  inputVideoStats : Option StatRecord
  outputAudioStats : Option StatRecord
  deriving DecidableEq, Repr

/-- Bitrate state of a freshly constructed Bitrate instance. -/
def BitrateState.empty : BitrateState :=
  ⟨none, none, none, none⟩

/-- Result record of Bitrate.find: per-direction per-media bitrates
(interface BitRateStats, src/bitrate.ts lines 3-6). -/
structure BitRateStats where
  videoInput : JSNum
  videoOutput : JSNum
  audioInput : JSNum
  audioOutput : JSNum
  deriving DecidableEq, Repr

/-- All-zero bitrate record, as returned before any prior sample exists and
by WebRTCCall.getBitRate when no peer connection is present. -/
def BitRateStats.zero : BitRateStats :=
  ⟨.num 0, .num 0, .num 0, .num 0⟩

/-- Bitrate.calcBitrate (src/bitrate.ts lines 91-103):
Math.floor(8 * (current.bytes - previous.bytes) /
(current.timestamp - previous.timestamp)), or 0 when no previous sample
exists. -/
def calcBitrate (current : StatRecord) (previous : Option StatRecord) : JSNum :=
  match previous with
  | none => .num 0
  | some p => jsFloorDiv (8 * (current.bytes - p.bytes)) (current.timestamp - p.timestamp)

/-- Loop body of the stats.forEach in Bitrate.find (src/bitrate.ts lines
27-77): the accumulator carries the mutable instance state together with
the four local bitrate variables (initialized to 0 before the loop). -/
def findStep (acc : BitrateState × BitRateStats) (report : Report) :
    BitrateState × BitRateStats :=
  let (st, out) := acc
  let sentRecord : StatRecord := ⟨report.bytesSent.getD 0, report.timestamp⟩
  let receivedRecord : StatRecord := ⟨report.bytesReceived.getD 0, report.timestamp⟩
  match report.type with
  | .inboundRtp =>
    match report.mediaType with
    | .video =>
      let out := { out with videoInput := calcBitrate receivedRecord st.inputVideoStats }
      ({ st with inputVideoStats := some receivedRecord }, out)
    | .audio =>
      let out := { out with audioInput := calcBitrate receivedRecord st.inputAudioStats }
      ({ st with inputAudioStats := some receivedRecord }, out)
    | .other => (st, out)
  | .outboundRtp =>
    match report.mediaType with
    | .video =>
      let out := { out with videoOutput := calcBitrate sentRecord st.outputVideoStats }
      ({ st with outputVideoStats := some sentRecord }, out)
    | .audio =>
      let out := { out with audioOutput := calcBitrate sentRecord st.outputAudioStats }
      ({ st with outputAudioStats := some sentRecord }, out)
    | .other => (st, out)
  | .other => (st, out)

/-- Bitrate.find (src/bitrate.ts lines 20-89) over the list of statistics
reports produced by peer.getStats: folds the forEach body over the reports
and returns the updated instance state together with the populated
BitRateStats record.  Note: the bitrate variables keep the value from the
last matching report (assignment, not accumulation), and calcBitrate is
always called with the previous sample guarded to be present, mirroring
the if statements around each call. -/
def Bitrate.find (st : BitrateState) (reports : List Report) :
    BitrateState × BitRateStats :=
  reports.foldl findStep (st, BitRateStats.zero)

/-! ## SDP bandwidth rewriting (src/webrtc-call.ts lines 846-877)

SDP strings are embedded as lists of characters.  The two regular
expressions the source uses, c=IN (.*)\r\n and b=MOD:.*\r\n, share one
shape: a literal pattern, then .* (which in JavaScript matches any
character except line terminators, in particular neither CR nor LF,
greedily), then the literal CRLF.  String.prototype.replace without the
global flag rewrites only the first match, scanning left to right. -/

/-- CRLF line terminator. -/
def crlf : List Char := ['\r', '\n']

/-- Character class matched by . in a JavaScript regular expression:
everything except the line terminators (CR and LF are the ones that can
occur in SDP). -/
def notTerm (c : Char) : Bool :=
  !(c = '\r' || c = '\n')

/-- Literal list-prefix test (pat is a prefix of l). -/
def hasPrefixL : List Char → List Char → Bool
  | [], _ => true
  | _ :: _, [] => false
  | p :: ps, c :: cs => p = c && hasPrefixL ps cs

/-- Substring occurrence test, the embedding of String.prototype.indexOf
compared against -1: true when pat occurs at some position of l. -/
def containsSub (pat : List Char) : List Char → Bool
  | [] => hasPrefixL pat []
  | c :: cs => hasPrefixL pat (c :: cs) || containsSub pat cs

/-- Number of positions of l at which pat occurs (used to count the
bandwidth lines a rewritten SDP contains). -/
def countSub (pat : List Char) : List Char → Nat
  | [] => if hasPrefixL pat [] then 1 else 0
  | c :: cs => (if hasPrefixL pat (c :: cs) then 1 else 0) + countSub pat cs

/-- Match of the regular expression pat ++ .* ++ CRLF at the head of l:
returns the characters matched by .* (the greedy run of non-terminator
characters after pat) and the remainder after the CRLF, or none when the
expression does not match at this position. -/
def matchPatLine (pat : List Char) (l : List Char) :
    Option (List Char × List Char) :=
  if hasPrefixL pat l then
    let rest := l.drop pat.length
    let run := rest.takeWhile notTerm
    let rest2 := rest.dropWhile notTerm
    if hasPrefixL crlf rest2 then some (run, rest2.drop 2) else none
  else none

/-- Embedding of String.prototype.replace for a non-global regular
expression pat ++ .* ++ CRLF: the leftmost match is replaced by mk applied
to the characters .* matched, and everything else is kept.  When no
position matches, the string is returned unchanged. -/
def replaceFirstMatch (pat : List Char) (mk : List Char → List Char) :
    List Char → List Char
  | [] => []
  | c :: cs =>
    match matchPatLine pat (c :: cs) with
    | some (run, rest) => mk run ++ rest
    | none => c :: replaceFirstMatch pat mk cs

/-- Literal pattern of the c=IN line regular expression. -/
def cinPat : List Char := "c=IN ".data

/-- Literal pattern b=MOD: of the bandwidth-line regular expression for a
given modifier. -/
def bPat (modifier : List Char) : List Char :=
  'b' :: '=' :: (modifier ++ [':'])

/-- Decimal digits of a natural number, as used when the source
interpolates the bandwidth value into the replacement template. -/
def natDigits (n : Nat) : List Char := (toString n).data

/-- The inserted or rewritten bandwidth line b=MOD:value\r\n. -/
def bLine (modifier : List Char) (bandwidth : Nat) : List Char :=
  bPat modifier ++ natDigits bandwidth ++ crlf

/-- WebRTCCall.updateBandwidthWithModifier (src/webrtc-call.ts lines
856-877): when the SDP does not contain the substring b=MOD: anywhere
(indexOf === -1), the first match of c=IN (.*)\r\n is replaced by
c=IN $1\r\nb=MOD:bandwidth\r\n, inserting the bandwidth line after that
c= line; otherwise the first match of b=MOD:.*\r\n is replaced by
b=MOD:bandwidth\r\n. -/
def updateBandwidthWithModifier (modifier : List Char) (bandwidth : Nat)
    (sdp : List Char) : List Char :=
  if containsSub (bPat modifier) sdp = false then
    replaceFirstMatch cinPat
      (fun run => cinPat ++ run ++ crlf ++ bLine modifier bandwidth) sdp
  else
    replaceFirstMatch (bPat modifier)
      (fun _ => bLine modifier bandwidth) sdp

/-- Configured bandwidth limit (type BandWidthLimit, src/webrtc-call.ts
line 8). -/
inductive BandWidth where
  | unlimited
  | limited (n : Nat)
  deriving DecidableEq, Repr

/-- WebRTCCall.updateBandWidth (src/webrtc-call.ts lines 846-854).  In the
unlimited branch the source evaluates
offer.sdp?.replace(/b=AS:.*\r\n/, "").replace(/b=TIAS:.*\r\n/, "") and
discards the resulting string (String.prototype.replace does not mutate,
and the result is not assigned back to offer.sdp), so the SDP is returned
unchanged.  In the limited branch the AS modifier is applied first with
the configured value and then the TIAS modifier with 1000 times that
value, each assigned back to offer.sdp. -/
def updateBandWidth (bw : BandWidth) (sdp : List Char) : List Char :=
  match bw with
  | .unlimited => sdp
  | .limited n =>
    updateBandwidthWithModifier "TIAS".data (n * 1000)
      (updateBandwidthWithModifier "AS".data n sdp)

/-! ## Host data model (browser RTC objects, as observed by the source) -/

/-- RTCSignalingState. -/
inductive SignalingState where
  | stable
  | haveLocalOffer
  | haveRemoteOffer
  | haveLocalPranswer
  | haveRemotePranswer
  | closed
  deriving DecidableEq, Repr

/-- RTCIceConnectionState. -/
inductive IceConnState where
  | new
  | checking
  | connected
  | completed
  | disconnected
  | failed
  | closed
  deriving DecidableEq, Repr

/-- RTCPeerConnectionState. -/
inductive ConnState where
  | new
  | connecting
  | connected
  | disconnected
  | failed
  | closed
  deriving DecidableEq, Repr

/-- RTCDataChannelState. -/
inductive DCState where
  | connecting
  | open
  | closing
  | closed
  deriving DecidableEq, Repr

/-- MediaDeviceKind. -/
inductive DevKind where
  | videoinput
  | audioinput
  | audiooutput
  deriving DecidableEq, Repr

/-- MediaDeviceInfo, with the ReactNative-only facing field made explicit as
an Option (the source reads device.facing behind a ts-ignore). -/
structure MediaDeviceInfo where
  deviceId : String
  kind : DevKind
  label : String
  facing : Option String
  deriving DecidableEq, Repr

/-- Kind of a media stream track. -/
inductive TrackKind where
  | video
  | audio
  deriving DecidableEq, Repr

/-- MediaStreamTrack, reduced to the fields the orchestrator reads and
writes (kind and the enabled flag). -/
structure Track where
  kind : TrackKind
  enabled : Bool
  deriving DecidableEq, Repr

/-- RTCDataChannel as observed by clean(): only its readyState matters. -/
structure DataChannel where
  readyState : DCState
  deriving DecidableEq, Repr

/-- Host-provided RTCPeerConnection, reduced to the observable state the
orchestrator reads.  mkOffer abstracts createOffer (its argument is the
iceRestart flag; offerToReceiveAudio/Video are always true in the source),
restartIceSupported abstracts the presence of the optional restartIce
method, and statsReports abstracts the reports getStats resolves with. -/
structure PeerConn where
  signalingState : SignalingState
  connectionState : ConnState
  iceConnectionState : IceConnState
  remoteDescription : Option (List Char)
  restartIceSupported : Bool
  mkOffer : Bool → List Char
  statsReports : List Report

/-- Peer-reported controls (interface ExternalControls). -/
structure ExternalControls where
  audio : Bool
  video : Bool
  deriving DecidableEq, Repr

/-- Construction options of WebRTCCall after the constructor has applied
its defaults (src/webrtc-call.ts lines 54-73).  sdpRoundtrip abstracts the
external sdp-transform library: the composite write(parse(s)), with none
standing for a thrown parse or write error. -/
structure Config where
  allowSDPTransform : Bool
  allowBitrateChecking : Bool
  allowIceStalledChecking : Bool
  bandwidth : BandWidth
  sdpRoundtrip : List Char → Option (List Char)

/-- Numeric error codes of src/errors.ts (enum ErrorCodes, starting at
100). -/
def supportErrorCode : Nat := 100

/-- POOR_CONNECTION_ERROR. -/
def poorConnectionErrorCode : Nat := 101

/-- NO_INTERNET_ACCESS_ERROR. -/
def noInternetAccessErrorCode : Nat := 102

/-- DEVICE_NOT_FOUND_ERROR. -/
def deviceNotFoundErrorCode : Nat := 103

/-- DEVICE_PERMISSION_ERROR. -/
def devicePermissionErrorCode : Nat := 104

/-- Observable actions of the orchestrator.  Remote ICE candidates are
identified by a natural number; SDP payloads are character lists.  Each
constructor names the host or collaborator call it stands for:
signaling sends, emitter events, peer-connection calls, the data channel
send, timer scheduling, and the internal needReconnection entry (which is
the restart-call path). -/
inductive Effect where
  | emitChange
  | emitFinish
  | emitLocalTrackChange
  | emitTrackChange
  | emitError (code : Nat)
  | sigConnect (id : String)
  | sigFinish (id : String)
  | sigDisconnect (id : String)
  | sendOffer (sdp : List Char)
  | sendAnswer (sdp : List Char)
  | sendICE (c : Nat)
  | addIce (c : Nat)
  | setLocalDesc (sdp : List Char)
  | restartIceNative
  | dataSend (audio video : Bool)
  | scheduleDisconnectedCheck (old : BitRateStats)
  | invokeReconnection
  | closeDataChannel
  | closePeer
  | stopTrack (t : Track)
  | logError
  deriving DecidableEq, Repr

/-- Mutable fields of the WebRTCCall instance (src/webrtc-call.ts lines
22-52).  signalingConnected mirrors the connected getter of the signaling
collaborator, and bitrateState the state of the lazily created Bitrate
instance (bitRateLog). -/
structure CallState where
  localStream : Option (List Track)
  audioStream : Option Track
  videoStream : Option Track
  videoDevice : Option MediaDeviceInfo
  audioDevice : Option MediaDeviceInfo
  peerStream : Option (List Track)
  peerVideo : Option (List Track)
  peerAudio : Option (List Track)
  rtcPeerConnection : Option PeerConn
  roomId : Option String
  dataChannel : Option DataChannel
  dataChannelOpen : Bool
  mediaStreamConstrains : Option String
  finished : Bool
  listeningForNetworkChange : Bool
  iceQueue : List Nat
  iceFailed : Bool
  externalControls : Option ExternalControls
  hasSignalingListeners : Bool
  runninDisconnectionStrategy : Bool
  bitrateState : Option BitrateState
  signalingConnected : Bool

/-- Field values of a freshly constructed WebRTCCall. -/
def CallState.initial : CallState where
  localStream := none
  audioStream := none
  videoStream := none
  videoDevice := none
  audioDevice := none
  peerStream := none
  peerVideo := none
  peerAudio := none
  rtcPeerConnection := none
  roomId := none
  dataChannel := none
  dataChannelOpen := false
  mediaStreamConstrains := none
  finished := false
  listeningForNetworkChange := false
  iceQueue := []
  iceFailed := false
  externalControls := none
  hasSignalingListeners := false
  runninDisconnectionStrategy := false
  bitrateState := none
  signalingConnected := false

/-- The audio getter (src/webrtc-call.ts lines 553-555):
localStream?.getAudioTracks().some(t => t.enabled) || false. -/
def CallState.audioOn (s : CallState) : Bool :=
  match s.localStream with
  | some ts => ts.any (fun t => t.kind = .audio && t.enabled)
  | none => false

/-- The video getter (src/webrtc-call.ts lines 557-559). -/
def CallState.videoOn (s : CallState) : Bool :=
  match s.localStream with
  | some ts => ts.any (fun t => t.kind = .video && t.enabled)
  | none => false

/-! ## Offer construction (src/webrtc-call.ts lines 998-1010, 1139-1153) -/

/-- WebRTCCall.sanitizeSDP: when allowSDPTransform is set, parse and
re-serialize the SDP through the sdp-transform library; a thrown error
keeps the original (catch branch), and the || offer.sdp fallback keeps the
original when write returns the empty (falsy) string. -/
def sanitizeSDP (cfg : Config) (sdp : List Char) : List Char :=
  if cfg.allowSDPTransform then
    match cfg.sdpRoundtrip sdp with
    | none => sdp
    | some t => if t = [] then sdp else t
  else sdp

/-- WebRTCCall.buildOffer (src/webrtc-call.ts lines 998-1010): create the
offer on the peer connection (with the iceRestart flag), sanitize it, and
apply the bandwidth rewrite.  The peer connection is passed explicitly;
the source reaches it through this.rtcPeerConnection. -/
def buildOffer (cfg : Config) (pc : PeerConn) (restart : Bool) : List Char :=
  updateBandWidth cfg.bandwidth (sanitizeSDP cfg (pc.mkOffer restart))

/-- WebRTCCall.restartICE (src/webrtc-call.ts lines 983-996): use the host
restartIce method when present, otherwise build a new offer with the
restart flag, set it as local description and send it over signaling.
When no peer connection exists the optional chain makes restartIce
undefined and the else branch dereferences an undefined offer; no claim
exercises that path and it is embedded as producing no effect. -/
def restartICE (cfg : Config) (s : CallState) : CallState × List Effect :=
  match s.rtcPeerConnection with
  | none => (s, [])
  | some pc =>
    if pc.restartIceSupported then (s, [.restartIceNative])
    else
      let offer := buildOffer cfg pc true
      (s, [.setLocalDesc offer, .sendOffer offer])

/-! ## Bitrate-driven disconnection strategy (src/webrtc-call.ts lines
1172-1256) -/

/-- WebRTCCall.getBitRate (src/webrtc-call.ts lines 1213-1222): lazily
create the Bitrate instance, then query it against the current peer
connection, or return the all-zero record when no peer connection
exists. -/
def getBitRate (s : CallState) : CallState × BitRateStats :=
  let s := { s with bitrateState := some (s.bitrateState.getD BitrateState.empty) }
  match s.rtcPeerConnection with
  | some pc =>
    let (st, stats) := Bitrate.find (s.bitrateState.getD BitrateState.empty) pc.statsReports
    ({ s with bitrateState := some st }, stats)
  | none => (s, BitRateStats.zero)

/-- WebRTCCall.brDiff (src/webrtc-call.ts lines 1234-1241) specialised to
one channel selector: old value minus the freshly sampled value. -/
def brDiff (s : CallState) (old : BitRateStats)
    (sel : BitRateStats → JSNum) : CallState × JSNum :=
  let (s, current) := getBitRate s
  (s, jsSub (sel old) (sel current))

/-- WebRTCCall.checkDifferenceAndRestart (src/webrtc-call.ts lines
1243-1256): restart ICE exactly when difference < -100. -/
def checkDifferenceAndRestart (cfg : Config) (s : CallState)
    (difference : JSNum) : CallState × List Effect :=
  if jsLtInt difference (-100) then restartICE cfg s else (s, [])

/-- Body of the 4-second setTimeout callback inside
WebRTCCall.runDisconnectedStrategy (src/webrtc-call.ts lines 1186-1210),
evaluated against the state at timer expiry: choose the most relevant
channel (local video output, else peer video input, else local audio
output, else peer audio input), compute the bitrate difference (0 when no
branch applies), run checkDifferenceAndRestart, and clear the
single-flight flag. -/
def disconnectedStrategyTimeout (cfg : Config) (s : CallState)
    (oldBitrate : BitRateStats) : CallState × List Effect :=
  let (s, bitRateDiff) :=
    if s.videoOn then brDiff s oldBitrate (fun b => b.videoOutput)
    else if (s.externalControls.map (fun e => e.video)).getD false then
      brDiff s oldBitrate (fun b => b.videoInput)
    else if s.audioOn then brDiff s oldBitrate (fun b => b.audioOutput)
    else if (s.externalControls.map (fun e => e.audio)).getD false then
      brDiff s oldBitrate (fun b => b.audioInput)
    else (s, .num 0)
  let (s, effs) := checkDifferenceAndRestart cfg s bitRateDiff
  ({ s with runninDisconnectionStrategy := false }, effs)

/-- WebRTCCall.runDisconnectedStrategy (src/webrtc-call.ts lines
1172-1211), up to the setTimeout call: note the guard returns immediately
when allowBitrateChecking is ENABLED (the strategy only runs with bitrate
checking disabled), and the runninDisconnectionStrategy flag makes it
single-flight.  The scheduled 4-second continuation is emitted as a
scheduleDisconnectedCheck effect carrying the sampled old bitrate and is
embedded separately as disconnectedStrategyTimeout. -/
def runDisconnectedStrategy (cfg : Config) (s : CallState) :
    CallState × List Effect :=
  if cfg.allowBitrateChecking then (s, [])
  else if s.runninDisconnectionStrategy then (s, [])
  else
    let s := { s with runninDisconnectionStrategy := true }
    let (s, oldBitrate) := getBitRate s
    (s, [.scheduleDisconnectedCheck oldBitrate])

/-! ## Connection state handlers (src/webrtc-call.ts lines 888-936,
1065-1089) -/

/-- WebRTCCall.oniceconnectionstatechange (src/webrtc-call.ts lines
888-936), with the state carried by the event passed explicitly.  The
trailing emit("change") runs after every branch of the switch. -/
def oniceconnectionstatechange (cfg : Config) (s : CallState)
    (state : IceConnState) : CallState × List Effect :=
  let (s, effs) :=
    match state with
    | .connected => ({ s with iceFailed := false }, [])
    | .disconnected => runDisconnectedStrategy cfg s
    | .failed =>
      if s.finished then (s, [])
      else if !s.iceFailed then
        restartICE cfg { s with iceFailed := true }
      else
        (s, [.emitError poorConnectionErrorCode])
    | .closed => (s, [])
    | _ => (s, [])
  (s, effs ++ [.emitChange])

/-- WebRTCCall.onconnectionstatechange (src/webrtc-call.ts lines
1065-1089): reads this.rtcPeerConnection?.connectionState; with no peer
connection the optional chain yields undefined, falling to the default
branch.  Only the failed branch acts, guarded by !finished, and the call
it makes, needReconnection, is emitted as the invokeReconnection
effect. -/
def onconnectionstatechange (s : CallState) : CallState × List Effect :=
  match s.rtcPeerConnection with
  | none => (s, [])
  | some pc =>
    match pc.connectionState with
    | .connected => (s, [])
    | .disconnected => (s, [])
    | .failed => if !s.finished then (s, [.invokeReconnection]) else (s, [])
    | .closed => (s, [])
    | _ => (s, [])

/-! ## ICE candidate queue (src/webrtc-call.ts lines 158-170, 1045-1063) -/

/-- The newIceCandidate signaling listener (src/webrtc-call.ts lines
158-170): apply immediately when a remote description exists; drop with a
warning when the signaling state is stable; otherwise push onto the queue.
With no peer connection both optional chains yield undefined and the
candidate is queued. -/
def onNewIceCandidate (s : CallState) (candidate : Nat) :
    CallState × List Effect :=
  match s.rtcPeerConnection with
  | some pc =>
    if pc.remoteDescription.isSome then (s, [.addIce candidate])
    else if pc.signalingState = .stable then (s, [])
    else ({ s with iceQueue := s.iceQueue ++ [candidate] }, [])
  | none => ({ s with iceQueue := s.iceQueue ++ [candidate] }, [])

/-- Array.prototype.pop: remove and return the last element. -/
def popLast (l : List Nat) : List Nat × Option Nat :=
  match l.getLast? with
  | none => (l, none)
  | some c => (l.dropLast, some c)

/-- The drain loop of onsignalingstatechange (src/webrtc-call.ts lines
1052-1061): queueLength iterations, each popping the LAST element of the
queue (Array.prototype.pop) and adding it to the peer connection.  The
first argument is the captured queueLength. -/
def drainLoop : Nat → List Nat → List Nat × List Effect
  | 0, q => (q, [])
  | n + 1, q =>
    match popLast q with
    | (q, none) => drainLoop n q
    | (q, some c) =>
      let (q, effs) := drainLoop n q
      (q, .addIce c :: effs)

/-- WebRTCCall.onsignalingstatechange (src/webrtc-call.ts lines
1045-1063): return immediately when finished; when a remote description
exists, run the drain loop over the ICE queue. -/
def onsignalingstatechange (s : CallState) : CallState × List Effect :=
  if s.finished then (s, [])
  else
    match s.rtcPeerConnection with
    | some pc =>
      if pc.remoteDescription.isSome then
        let (q, effs) := drainLoop s.iceQueue.length s.iceQueue
        ({ s with iceQueue := q }, effs)
      else (s, [])
    | none => (s, [])

/-! ## Teardown (src/webrtc-call.ts lines 431-547) -/

/-- WebRTCCall.clean (src/webrtc-call.ts lines 489-547): reset the flags
and the ICE queue, clear the external controls, null the data channel
listeners and close the channel unless already closing or closed, null
the peer connection listeners and close it unless already closed, and
drop both handles. -/
def cleanState (s : CallState) : CallState × List Effect :=
  let s := { s with
    dataChannelOpen := false
    listeningForNetworkChange := false
    iceQueue := []
    externalControls := none }
  let (s, dcEffs) :=
    match s.dataChannel with
    | some dc =>
      ({ s with dataChannel := none },
       if dc.readyState = DCState.closing || dc.readyState = DCState.closed then
         ([] : List Effect)
       else [.closeDataChannel])
    | none => (s, ([] : List Effect))
  let (s, pcEffs) :=
    match s.rtcPeerConnection with
    | some pc =>
      ({ s with rtcPeerConnection := none },
       if pc.connectionState = ConnState.closed then ([] : List Effect)
       else [.closePeer])
    | none => (s, ([] : List Effect))
  (s, dcEffs ++ pcEffs)

/-- WebRTCCall.releaseTracks (src/webrtc-call.ts lines 467-487): stop every
peer track and drop the peer stream handles, then stop every local track
and drop the local stream handles. -/
def releaseTracks (s : CallState) : CallState × List Effect :=
  let (s, peerEffs) :=
    match s.peerStream with
    | some ts =>
      ({ s with peerStream := none, peerAudio := none, peerVideo := none },
       ts.map Effect.stopTrack)
    | none => (s, [])
  let (s, localEffs) :=
    match s.localStream with
    | some ts =>
      ({ s with localStream := none, audioStream := none, videoStream := none },
       ts.map Effect.stopTrack)
    | none => (s, [])
  (s, peerEffs ++ localEffs)

/-- WebRTCCall.finish (src/webrtc-call.ts lines 431-465).  A second call
returns immediately (warning log only); a call without a roomId throws,
embedded as Except.error with the thrown message; otherwise the room id is
saved and cleared, the finished flag set, the peer connection cleaned, the
tracks released, signaling finish and disconnect called with any rejection
swallowed into an error log (the booleans sigFinishFails and
sigDisconnectFails say whether those collaborator calls reject), and
finally the finish and change events are emitted. -/
def finish (sigFinishFails sigDisconnectFails : Bool) (s : CallState) :
    Except String (CallState × List Effect) :=
  if s.finished then .ok (s, [])
  else
    match s.roomId with
    | none =>
      .error "Could not disconnect from the room because the roomId is empty"
    | some roomId =>
      let s := { s with
        roomId := none
        mediaStreamConstrains := none
        finished := true }
      let (s, cleanEffs) := cleanState s
      let (s, trackEffs) := releaseTracks s
      let finEffs := Effect.sigFinish roomId ::
        (if sigFinishFails then [Effect.logError] else [])
      let disEffs := Effect.sigDisconnect roomId ::
        (if sigDisconnectFails then [Effect.logError] else [])
      .ok (s, cleanEffs ++ trackEffs ++ finEffs ++ disEffs ++
        [.emitFinish, .emitChange])

/-! ## Controls (src/webrtc-call.ts lines 589-591, 712-729, 1091-1100) -/

/-- WebRTCCall.sendData (src/webrtc-call.ts lines 1091-1100) applied to
the control frame: the frame goes out whenever the data channel HANDLE
exists (the check is on this.dataChannel, not on the open flag); with no
handle only a warning is logged. -/
def sendControls (s : CallState) : List Effect :=
  match s.dataChannel with
  | some _ => [.dataSend s.audioOn s.videoOn]
  | none => []

/-- WebRTCCall.toggleAudio (src/webrtc-call.ts lines 712-716): flip the
enabled flag of every local audio track (a no-op on the stream when no
local stream exists, by the optional chain), then unconditionally send the
control frame and emit change. -/
def toggleAudio (s : CallState) : CallState × List Effect :=
  let s :=
    match s.localStream with
    | some ts =>
      { s with localStream := some (ts.map (fun t =>
          if t.kind = .audio then { t with enabled := !t.enabled } else t)) }
    | none => s
  (s, sendControls s ++ [.emitChange])

/-- WebRTCCall.toggleVideo (src/webrtc-call.ts lines 718-722). -/
def toggleVideo (s : CallState) : CallState × List Effect :=
  let s :=
    match s.localStream with
    | some ts =>
      { s with localStream := some (ts.map (fun t =>
          if t.kind = .video then { t with enabled := !t.enabled } else t)) }
    | none => s
  (s, sendControls s ++ [.emitChange])

/-- The media environment visible to the orchestrator:
navigator.mediaDevices.  enumerateResult is what enumerateDevices resolves
with (or the name of the error it rejects with); videoTracksResult and
audioTracksResult are the track lists of the streams the two getUserMedia
calls resolve with (or the rejection error name). -/
structure MediaEnv where
  enumerateResult : Except String (List MediaDeviceInfo)
  videoTracksResult : Except String (List Track)
  audioTracksResult : Except String (List Track)

/-- WebRTCCall.getDevices (src/webrtc-call.ts lines 589-591): the body is
return Promise.resolve([]); the media environment parameter records that
the devices actually present are never consulted, and the empty effect
list that no host call is made. -/
def getDevices (_env : MediaEnv) : List MediaDeviceInfo × List Effect :=
  ([], [])

/-! ## Media acquisition and start (src/webrtc-call.ts lines 75-96,
238-357) -/

/-- WebRTCCall.handleDeviceError (src/webrtc-call.ts lines 328-357) keyed
on the DOMException name: Abort/Security/NotAllowed emit the permission
error, NotFound/NotReadable/Overconstrained emit the not-found error, and
any other name is logged and re-thrown (second component true). -/
def handleDeviceError (name : String) : List Effect × Bool :=
  if name = "AbortError" || name = "SecurityError" || name = "NotAllowedError" then
    ([.emitError devicePermissionErrorCode], false)
  else if name = "NotFoundError" || name = "NotReadableError"
      || name = "OverconstrainedError" then
    ([.emitError deviceNotFoundErrorCode], false)
  else ([.logError], true)

/-- Substring test of the regular expression /back|rear/ against a device
label. -/
def labelBackRear (label : String) : Bool :=
  containsSub "back".data label.data || containsSub "rear".data label.data

/-- First pass of the default video-device selection (src/webrtc-call.ts
lines 272-281): a device with a truthy facing field is chosen iff
facing === "front" (an empty string is falsy and falls through to the
generic test); otherwise the first videoinput whose label does not match
/back|rear/. -/
def pickVideoFirstPass (devices : List MediaDeviceInfo) :
    Option MediaDeviceInfo :=
  devices.find? (fun d =>
    match d.facing with
    | some f =>
      if f = "" then d.kind = DevKind.videoinput && !labelBackRear d.label
      else f = "front"
    | none => d.kind = DevKind.videoinput && !labelBackRear d.label)

/-- Outcome of WebRTCCall.getMediaStream: the boolean the source resolves
with, or the name of an unknown device error re-thrown by
handleDeviceError. -/
inductive GmsResult where
  | ok (granted : Bool)
  | thrown (errName : String)
  deriving DecidableEq, Repr

/-- WebRTCCall.getMediaStream (src/webrtc-call.ts lines 238-326):
enumerate devices (device errors handled as for the camera), re-find the
remembered devices by id, select defaults (front camera first, else first
videoinput; first audioinput), then acquire the video and the audio
stream, keeping the first enabled track of each; finally assemble the
local stream and emit local-track-change.  The assembled stream contains
the tracks that were found (the source would pass undefined entries to
the MediaStream constructor otherwise). -/
def getMediaStream (env : MediaEnv) (s : CallState) :
    CallState × List Effect × GmsResult :=
  match env.enumerateResult with
  | .error e =>
    let (effs, thrown) := handleDeviceError e
    if thrown then (s, effs, .thrown e) else (s, effs, .ok false)
  | .ok devices =>
    let s :=
      match s.videoDevice with
      | some vd =>
        { s with videoDevice := devices.find? (fun d => d.deviceId = vd.deviceId) }
      | none => s
    let s :=
      match s.audioDevice with
      | some ad =>
        { s with audioDevice := devices.find? (fun d => d.deviceId = ad.deviceId) }
      | none => s
    let s :=
      if s.videoDevice.isNone then
        let firstPass := pickVideoFirstPass devices
        { s with videoDevice :=
            match firstPass with
            | some d => some d
            | none => devices.find? (fun d => d.kind = DevKind.videoinput) }
      else s
    let s :=
      if s.audioDevice.isNone then
        { s with audioDevice := devices.find? (fun d => d.kind = DevKind.audioinput) }
      else s
    match env.videoTracksResult with
    | .error e =>
      let (effs, thrown) := handleDeviceError e
      if thrown then (s, effs, .thrown e) else (s, effs, .ok false)
    | .ok vts =>
      let vTrack : Option Track :=
        (vts.filter (fun t => t.kind = TrackKind.video)).find? (fun v => v.enabled)
      let s := { s with videoStream := vTrack }
      match env.audioTracksResult with
      | .error e =>
        let (effs, thrown) := handleDeviceError e
        if thrown then (s, effs, .thrown e) else (s, effs, .ok false)
      | .ok ats =>
        let aTrack : Option Track :=
          (ats.filter (fun t => t.kind = TrackKind.audio)).find? (fun a => a.enabled)
        let s := { s with audioStream := aTrack }
        let s :=
          { s with localStream := some (s.videoStream.toList ++ s.audioStream.toList) }
        (s, [.emitLocalTrackChange], .ok true)

/-- WebRTCCall._setupSignalingListeners (src/webrtc-call.ts lines 98-182),
reduced to its effect on the instance state: set the listener flag (the
listener closures themselves are the handler functions embedded above). -/
def setupSignalingListeners (s : CallState) : CallState :=
  if s.hasSignalingListeners then s else { s with hasSignalingListeners := true }

/-- WebRTCCall.start (src/webrtc-call.ts lines 75-96): store the room id
and the constraints, unconditionally reset the finished flag, acquire
media; on success attach the signaling listeners and connect signaling if
not yet connected (signalingConnected is set to mirror the collaborator
state after the awaited connect); on a false result only warn; either way
emit change.  An unknown device error thrown by getMediaStream propagates
(third component), in which case the change emit is not reached. -/
def start (env : MediaEnv) (s : CallState) (roomId : String)
    (constraints : String) : CallState × List Effect × Option String :=
  let s := { s with
    roomId := some roomId
    mediaStreamConstrains := some constraints
    finished := false }
  match getMediaStream env s with
  | (s, effs, .thrown e) => (s, effs, some e)
  | (s, effs, .ok granted) =>
    if granted then
      let s := setupSignalingListeners s
      let (s, connEffs) :=
        if !s.signalingConnected then
          ({ s with signalingConnected := true }, [Effect.sigConnect roomId])
        else (s, ([] : List Effect))
      (s, effs ++ connEffs ++ [.emitChange], none)
    else
      (s, effs ++ [.emitChange], none)

/-! ## Derived predicates and concrete fixtures used by the theorems -/

/-- Effects that perform negotiation, reconnection or signaling traffic:
an ICE restart (native or offer-based, including the local-description
set), any outbound signaling call, or entering the needReconnection
(restart-call) path.  The terminal-state claim asserts none of these occur
after finish. -/
def reconnectEffect : Effect → Bool
  | .restartIceNative => true
  | .setLocalDesc _ => true
  | .sendOffer _ => true
  | .sendAnswer _ => true
  | .sendICE _ => true
  | .sigConnect _ => true
  | .sigFinish _ => true
  | .sigDisconnect _ => true
  | .invokeReconnection => true
  | _ => false

/-- States in which the newIceCandidate listener buffers the candidate:
either no peer connection exists, or the peer connection has no remote
description and its signaling state is not stable (src/webrtc-call.ts
lines 158-170, read off the two guards). -/
def buffersCandidates (s : CallState) : Bool :=
  match s.rtcPeerConnection with
  | none => true
  | some pc => pc.remoteDescription.isNone && !(pc.signalingState = SignalingState.stable)

/-- Folding the newIceCandidate listener over a list of arriving
candidates (states only; the listener emits nothing in the buffering
case). -/
def enqueueAll (s : CallState) (cs : List Nat) : CallState :=
  cs.foldl (fun st c => (onNewIceCandidate st c).1) s

/-- No match of pat ++ .* ++ CRLF starts inside p when p is followed by
tail: at every nonempty tail position of p the regular expression fails
to match.  This is the side condition under which a leftmost-match
replacement on p ++ tail happens entirely inside tail. -/
def noMatchStartsIn (pat : List Char) (p tail : List Char) : Bool :=
  p.tails.all (fun s => s.isEmpty || (matchPatLine pat (s ++ tail)).isNone)

/-- A configuration with every option off and a 600 kbps bandwidth (the
source default), with the sdp-transform library never invoked. -/
def defaultCfg : Config :=
  ⟨false, false, false, .limited 600, fun _ => none⟩

/-- A configuration with bandwidth unlimited. -/
def unlimitedCfg : Config :=
  ⟨false, false, false, .unlimited, fun _ => none⟩

/-- An SDP that already carries one b=AS and one b=TIAS line. -/
def sdpWithBLines : List Char :=
  "v=0\r\nc=IN IP4 1.2.3.4\r\nb=AS:300\r\nb=TIAS:300000\r\n".data

/-- An SDP with two media sections, each with its own c=IN line and no
bandwidth lines. -/
def twoSectionSDP : List Char :=
  "v=0\r\nm=video 9 U\r\nc=IN IP4 0.0.0.0\r\nm=audio 9 U\r\nc=IN IP4 0.0.0.0\r\n".data

/-- A peer connection whose host createOffer returns sdpWithBLines. -/
def pcOfferWithBLines : PeerConn :=
  ⟨.stable, .new, .new, none, true, fun _ => sdpWithBLines, []⟩

/-- A peer connection holding a remote description, supporting the native
restartIce. -/
def pcWithRemote : PeerConn :=
  ⟨.haveRemoteOffer, .connected, .connected, some "v=0\r\n".data, true,
   fun _ => sdpWithBLines, []⟩

/-- A call state observing a remote description with two queued remote ICE
candidates, candidate 1 having arrived before candidate 2. -/
def stateQueuedTwo : CallState :=
  { CallState.initial with
    roomId := some "r1"
    rtcPeerConnection := some pcWithRemote
    iceQueue := [1, 2] }

/-- A call state with no local stream but with a data channel handle. -/
def stateNoStreamWithChannel : CallState :=
  { CallState.initial with dataChannel := some ⟨.open⟩ }

/-- A post-finish call state (the shape WebRTCCall.finish leaves behind:
flag set, handles and controls cleared). -/
def stateFinished : CallState :=
  { CallState.initial with finished := true }

/-- An active mid-call state used to exercise finish: local and peer
streams present, open data channel, live peer connection. -/
def stateActive : CallState :=
  { CallState.initial with
    roomId := some "r1"
    mediaStreamConstrains := some "cam"
    localStream := some [⟨.video, true⟩, ⟨.audio, true⟩]
    audioStream := some ⟨.audio, true⟩
    videoStream := some ⟨.video, true⟩
    peerStream := some [⟨.video, false⟩]
    peerVideo := some [⟨.video, false⟩]
    dataChannel := some ⟨.open⟩
    dataChannelOpen := true
    rtcPeerConnection := some pcWithRemote
    externalControls := some ⟨true, true⟩
    signalingConnected := true }

/-- A statistics report of the inbound video channel with the given bytes
and timestamp. -/
def fourReports (b1 t1 b2 t2 b3 t3 b4 t4 : ℤ) : List Report :=
  [⟨.inboundRtp, .video, none, some b1, t1⟩,
   ⟨.outboundRtp, .video, some b2, none, t2⟩,
   ⟨.inboundRtp, .audio, none, some b3, t3⟩,
   ⟨.outboundRtp, .audio, some b4, none, t4⟩]

/-- A single inbound-video statistics report. -/
def inboundVideoReport : Report :=
  ⟨.inboundRtp, .video, none, some 5, 100⟩

/-- A media environment with one front camera and one microphone, both
acquisitions succeeding. -/
def happyEnv : MediaEnv :=
  ⟨.ok [⟨"cam1", .videoinput, "front cam", some "front"⟩,
        ⟨"mic1", .audioinput, "mic", none⟩],
   .ok [⟨.video, true⟩],
   .ok [⟨.audio, true⟩]⟩

/-- A live peer connection (native restartIce available) whose statistics
snapshot holds one outbound video report with zero bytes at timestamp
zero. -/
def pcStatsZero : PeerConn :=
  ⟨.stable, .connected, .connected, some "v=0\r\n".data, true,
   fun _ => sdpWithBLines, [⟨.outboundRtp, .video, some 0, none, 0⟩]⟩

/-- The same peer connection observed later, after the statistics have
advanced: 20000 bytes sent at timestamp 1000 ms, i.e. the video output
bitrate has grown to floor(8 * 20000 / 1000) = 160 kbps. -/
def pcStatsGrown : PeerConn :=
  ⟨.stable, .connected, .connected, some "v=0\r\n".data, true,
   fun _ => sdpWithBLines, [⟨.outboundRtp, .video, some 20000, none, 1000⟩]⟩

/-- A state with the finished flag set but with a local stream and a live
peer connection re-established afterwards: reachable because onNewPeer,
the newOffer listener and the public askUserMedia carry no finished guard
(src/webrtc-call.ts lines 109-132, 184-206, 232-236), so a signaling
event arriving while finish() awaits signaling.finish — the listeners are
only detached by signaling.disconnect later — rebuilds the peer
connection and re-acquires media with the flag already true. -/
def stateRevived0 : CallState :=
  { CallState.initial with
    finished := true
    localStream := some [⟨.video, true⟩, ⟨.audio, true⟩]
    rtcPeerConnection := some pcStatsZero }

/-- The revived finished state at expiry of the scheduled 4-second check:
the disconnected strategy has set its single-flight flag and stored the
zero sample, and the peer connection statistics have advanced. -/
def stateRevived1 : CallState :=
  { stateRevived0 with
    runninDisconnectionStrategy := true
    bitrateState := some ⟨none, some ⟨0, 0⟩, none, none⟩
    rtcPeerConnection := some pcStatsGrown }

/-! ## Theorems -/

/-- C9: the public getDevices operation always resolves to the empty list,
whatever media devices the environment exposes, and performs no host call
(it never consults the media provider). -/
theorem getDevices_empty_ignores_provider (env : MediaEnv) :
    getDevices env = ([], []) := rfl

/-- C3 is falsified by the source: with bandwidth unlimited, buildOffer
returns the host SDP unchanged, so the b=AS and b=TIAS lines it carried
remain in the SDP that is set as local description and sent.  The
unlimited branch of updateBandWidth (src/webrtc-call.ts line 848)
evaluates String.prototype.replace but discards the result, so nothing is
removed (and even the discarded value would only have dropped the first
occurrence of each pattern, the regular expressions being non-global).
The claim describes the evident intent; the code drops the assignment. -/
theorem unlimited_bandwidth_keeps_b_lines :
    buildOffer unlimitedCfg pcOfferWithBLines false = sdpWithBLines
  ∧ containsSub (bPat "AS".data) sdpWithBLines = true
  ∧ containsSub (bPat "TIAS".data) sdpWithBLines = true :=
  ⟨rfl, by decide, by decide⟩

/-- C8 counterexample: two consecutive Bitrate.find calls over the same
single inbound-video report (bytes 5, timestamp 100) disagree: the first
returns 0 on every channel (no prior sample), the second returns NaN on
the video input channel, because the bytes and timestamp deltas are both
zero and Math.floor(0 / 0) is NaN. -/
theorem bitrate_identical_calls_differ :
    (Bitrate.find (Bitrate.find BitrateState.empty [inboundVideoReport]).1
        [inboundVideoReport]).2
      ≠ (Bitrate.find BitrateState.empty [inboundVideoReport]).2 := by
  decide

/-- C8 amended: when the reports underlying two consecutive Bitrate.find
calls carry identical bytes/timestamp values (one report per channel
here), the second call does not repeat the first call output: it returns
NaN on every reported channel, the per-channel delta quotient being 0/0.
This holds from any prior sampler state. -/
theorem bitrate_second_identical_call_is_nan (st : BitrateState)
    (b1 t1 b2 t2 b3 t3 b4 t4 : ℤ) :
    (Bitrate.find (Bitrate.find st (fourReports b1 t1 b2 t2 b3 t3 b4 t4)).1
        (fourReports b1 t1 b2 t2 b3 t3 b4 t4)).2
      = ⟨.nan, .nan, .nan, .nan⟩ := by
  simp [Bitrate.find, fourReports, findStep, calcBitrate, jsFloorDiv]

/-- C7 counterexample: with no local stream but a data channel handle
present, toggleAudio still emits a change event and still pushes a
control frame, so the operation is not a silent no-op; toggleVideo
behaves identically. -/
theorem toggle_no_stream_still_emits :
    (toggleAudio stateNoStreamWithChannel).2
        = [Effect.dataSend false false, Effect.emitChange]
  ∧ (toggleVideo stateNoStreamWithChannel).2
        = [Effect.dataSend false false, Effect.emitChange] := by
  constructor <;> rfl

/-- C7 amended: when no local stream exists, toggleAudio and toggleVideo
leave the state unchanged (there are no tracks to flip), but each still
sends a control frame reporting audio and video disabled whenever a data
channel handle exists, and each still emits a change event. -/
theorem toggle_without_stream (s : CallState) (h : s.localStream = none) :
    toggleAudio s = (s, sendControls s ++ [Effect.emitChange])
  ∧ toggleVideo s = (s, sendControls s ++ [Effect.emitChange])
  ∧ sendControls s = (match s.dataChannel with
      | some _ => [Effect.dataSend false false]
      | none => []) := by
  refine ⟨?_, ?_, ?_⟩
  · simp [toggleAudio, h]
  · simp [toggleVideo, h]
  · cases hdc : s.dataChannel <;>
      simp [sendControls, hdc, CallState.audioOn, CallState.videoOn, h]

/-- C7 amended witness at the concrete no-stream state with an open data
channel. -/
theorem toggle_without_stream_witness :
    toggleAudio stateNoStreamWithChannel
      = (stateNoStreamWithChannel, sendControls stateNoStreamWithChannel
          ++ [Effect.emitChange]) :=
  (toggle_without_stream stateNoStreamWithChannel rfl).1

/-- Media acquisition never touches the finished flag: every path through
getMediaStream returns a state with the same finished value. -/
theorem getMediaStream_preserves_finished (env : MediaEnv) (s : CallState) :
    (getMediaStream env s).1.finished = s.finished := by
  unfold getMediaStream
  cases env.enumerateResult with
  | error e =>
    simp only []
    split <;> rfl
  | ok devices =>
    cases env.videoTracksResult with
    | error e =>
      simp only []
      split <;> split <;> split <;> split <;> split <;> rfl
    | ok vts =>
      cases env.audioTracksResult with
      | error e =>
        simp only []
        split <;> split <;> split <;> split <;> split <;> rfl
      | ok ats =>
        simp only []
        split <;> split <;> split <;> split <;> rfl

/-- C10: start stores the room id and constraints and then unconditionally
resets the finished flag before anything else; no later step of start ever
sets it back, so the state start returns is never finished, even when the
orchestrator was finished on entry (a finished orchestrator is revived),
and regardless of how media acquisition turns out (including the re-thrown
unknown device error). -/
theorem start_resets_finished (env : MediaEnv) (s : CallState)
    (roomId constraints : String) :
    (start env s roomId constraints).1.finished = false := by
  have hsl : ∀ t : CallState, (setupSignalingListeners t).finished = t.finished := by
    intro t
    unfold setupSignalingListeners
    split <;> rfl
  simp only [start]
  have h := getMediaStream_preserves_finished env
    { s with
      roomId := some roomId
      mediaStreamConstrains := some constraints
      finished := false }
  rcases hg : getMediaStream env
    { s with
      roomId := some roomId
      mediaStreamConstrains := some constraints
      finished := false } with ⟨s1, effs, r⟩
  rw [hg] at h
  simp only at h
  cases r with
  | thrown e => simpa using h
  | ok granted =>
    cases granted with
    | false => simpa using h
    | true =>
      simp only []
      cases hconn : (setupSignalingListeners s1).signalingConnected <;>
        simp [hconn, hsl, h]

/-- The drain loop pops from the tail: run for the full queue length it
empties the queue and applies the candidates in reverse arrival order. -/
theorem drainLoop_reverse (q : List Nat) :
    drainLoop q.length q = ([], q.reverse.map Effect.addIce) := by
  induction q using List.reverseRecOn with
  | nil => rfl
  | append_singleton q' c ih =>
    simp only [List.length_append, List.length_cons, List.length_nil,
      Nat.add_zero, drainLoop, popLast, List.getLast?_concat,
      List.dropLast_concat, ih]
    simp

/-- C1 counterexample: with candidates 1 then 2 queued (in arrival order)
and a remote description present, the signaling-state-change handler adds
candidate 2 to the peer connection before candidate 1 — the drain loop
uses Array.prototype.pop and therefore drains in LIFO order, not in the
claimed FIFO order. -/
theorem ice_drain_not_fifo :
    (onsignalingstatechange stateQueuedTwo).2 = [Effect.addIce 2, Effect.addIce 1]
  ∧ (onsignalingstatechange stateQueuedTwo).2 ≠ [Effect.addIce 1, Effect.addIce 2] := by
  refine ⟨rfl, ?_⟩
  intro h
  have h2 : ([Effect.addIce 2, Effect.addIce 1] : List Effect)
      = [Effect.addIce 1, Effect.addIce 2] := by
    calc ([Effect.addIce 2, Effect.addIce 1] : List Effect)
        = (onsignalingstatechange stateQueuedTwo).2 := rfl
      _ = [Effect.addIce 1, Effect.addIce 2] := h
  simp at h2

/-- C1 amended: candidates that arrive while they cannot be applied are
appended to the queue in arrival (FIFO) order; and once a signaling-state
change fires with a remote description present (and the call is not
finished), the handler drains the whole queue into the peer connection in
REVERSE arrival (LIFO) order and leaves the queue empty. -/
theorem ice_buffer_order_and_drain :
    (∀ (s : CallState) (cs : List Nat), buffersCandidates s = true →
      (enqueueAll s cs).iceQueue = s.iceQueue ++ cs)
  ∧ (∀ (s : CallState) (pc : PeerConn), s.finished = false →
      s.rtcPeerConnection = some pc → pc.remoteDescription.isSome = true →
      onsignalingstatechange s
        = ({ s with iceQueue := [] }, s.iceQueue.reverse.map Effect.addIce)) := by
  constructor
  · intro s cs hb
    induction cs generalizing s with
    | nil => simp [enqueueAll]
    | cons c cs ih =>
      have hstep : (onNewIceCandidate s c).1
          = { s with iceQueue := s.iceQueue ++ [c] } := by
        unfold onNewIceCandidate
        unfold buffersCandidates at hb
        cases hpc : s.rtcPeerConnection with
        | none => simp [hpc]
        | some pc =>
          rw [hpc] at hb
          simp only [Bool.and_eq_true, Option.isNone_iff_eq_none,
            Bool.not_eq_true', decide_eq_false_iff_not] at hb
          simp [hpc, hb.1, hb.2]
      have hb' : buffersCandidates { s with iceQueue := s.iceQueue ++ [c] } = true := by
        unfold buffersCandidates at hb ⊢
        cases hpc : s.rtcPeerConnection with
        | none => simp
        | some pc => rw [hpc] at hb; simpa using hb
      have hfold : enqueueAll s (c :: cs) = enqueueAll (onNewIceCandidate s c).1 cs := rfl
      rw [hfold, hstep, ih _ hb']
      simp
  · intro s pc hf hpc hrd
    unfold onsignalingstatechange
    rw [hf, hpc]
    simp [hrd, drainLoop_reverse]

/-- C1 amended witness: from the initial state two candidates enqueue in
arrival order, and the concrete queued state with a remote description
drains to an empty queue applying candidate 2 before candidate 1. -/
theorem ice_buffer_order_and_drain_witness :
    (enqueueAll CallState.initial [1, 2]).iceQueue = [1, 2]
  ∧ onsignalingstatechange stateQueuedTwo
      = ({ stateQueuedTwo with iceQueue := [] }, [Effect.addIce 2, Effect.addIce 1]) := by
  constructor
  · have h := ice_buffer_order_and_drain.1 CallState.initial [1, 2] rfl
    simpa using h
  · have h := ice_buffer_order_and_drain.2 stateQueuedTwo pcWithRemote rfl rfl rfl
    simpa using h

/-- C5: on an iceConnectionState failed event with the call not finished,
a first failure (iceFailed still false) sets the flag and restarts ICE —
through the native restartIce when the host supports it, otherwise by
building a new offer with the restart flag, setting it as local
description and sending it — while a repeated failure (flag already set)
emits a POOR_CONNECTION_ERROR error event and performs no restart.  The
trailing change emit of the handler appears in both outcomes. -/
theorem ice_failed_restart_then_poor_connection
    (cfg : Config) (s : CallState) (pc : PeerConn)
    (hf : s.finished = false) (hpc : s.rtcPeerConnection = some pc) :
    (s.iceFailed = false →
      oniceconnectionstatechange cfg s .failed
        = ({ s with iceFailed := true },
           (if pc.restartIceSupported then [Effect.restartIceNative]
            else [Effect.setLocalDesc (buildOffer cfg pc true),
                  Effect.sendOffer (buildOffer cfg pc true)])
             ++ [Effect.emitChange]))
  ∧ (s.iceFailed = true →
      oniceconnectionstatechange cfg s .failed
        = (s, [Effect.emitError poorConnectionErrorCode, Effect.emitChange])) := by
  constructor
  · intro hif
    unfold oniceconnectionstatechange restartICE
    rw [hf]
    simp only [hif]
    simp [hpc]
    split <;> simp
  · intro hif
    unfold oniceconnectionstatechange
    rw [hf]
    simp [hif]

/-- C5 witness at a concrete unfinished state whose peer connection
supports the native restartIce and has not failed before. -/
theorem ice_failed_restart_witness :
    (stateQueuedTwo.iceFailed = false →
      oniceconnectionstatechange defaultCfg stateQueuedTwo .failed
        = ({ stateQueuedTwo with iceFailed := true },
           (if pcWithRemote.restartIceSupported then [Effect.restartIceNative]
            else [Effect.setLocalDesc (buildOffer defaultCfg pcWithRemote true),
                  Effect.sendOffer (buildOffer defaultCfg pcWithRemote true)])
             ++ [Effect.emitChange]))
  ∧ (stateQueuedTwo.iceFailed = true →
      oniceconnectionstatechange defaultCfg stateQueuedTwo .failed
        = (stateQueuedTwo,
           [Effect.emitError poorConnectionErrorCode, Effect.emitChange])) :=
  ice_failed_restart_then_poor_connection defaultCfg stateQueuedTwo pcWithRemote rfl rfl

/-- C2 counterexample: finished = true is not by itself terminal.  The
state stateRevived0 has the finished flag set together with a local
stream and a live peer connection — reachable because onNewPeer, the
newOffer listener and askUserMedia carry no finished guard, so signaling
events arriving while finish() awaits signaling.finish can rebuild both.
From that state an iceConnectionState disconnected event runs the
(likewise unguarded) disconnected strategy and schedules the 4-second
bitrate check with the zero sample; at expiry, the statistics having
advanced (stateRevived1, related to the handler output exactly by the
advanced statistics snapshot), the sampled video output bitrate is 160
kbps, the difference 0 - 160 is below -100, and the check calls
restartICE — a reconnection effect produced while finished = true,
refuting the claim that no state-change event arriving while
finished = true ever performs a restartICE. -/
theorem finished_state_can_restart_ice :
    stateRevived0.finished = true
  ∧ stateRevived1.finished = true
  ∧ (oniceconnectionstatechange defaultCfg stateRevived0 .disconnected).2
      = [Effect.scheduleDisconnectedCheck BitRateStats.zero, Effect.emitChange]
  ∧ stateRevived1
      = { (oniceconnectionstatechange defaultCfg stateRevived0 .disconnected).1 with
          rtcPeerConnection := some pcStatsGrown }
  ∧ (disconnectedStrategyTimeout defaultCfg stateRevived1 BitRateStats.zero).2
      = [Effect.restartIceNative]
  ∧ reconnectEffect Effect.restartIceNative = true :=
  ⟨rfl, rfl, rfl, rfl, rfl, rfl⟩

/-- C2 amended: with the finished flag set, and as long as the post-finish
cleanup is still in effect — no local stream and no external controls
have been re-established (the two hypotheses below; re-establishment
while finished = true is possible since onNewPeer, the newOffer listener
and askUserMedia carry no finished guard, see the counterexample) — none
of the peer-connection state-change events triggers negotiation,
reconnection or signaling traffic: the iceConnectionState failed handler
only emits change (guarded by finished), the iceConnectionState
disconnected handler at most samples the bitrate and schedules its
4-second check, the connectionState handler never enters needReconnection
(guarded by finished), and the scheduled bitrate check itself finds no
relevant channel, so its difference is 0 and it never restarts ICE.  In
all four cases every produced effect is outside the reconnectEffect set
(no restartIce, no local-description set, no offer/answer/candidate send,
no signaling connect/finish/disconnect, no needReconnection entry). -/
theorem finished_is_terminal
    (cfg : Config) (s : CallState) (old : BitRateStats)
    (hf : s.finished = true)
    (hls : s.localStream = none)
    (hec : s.externalControls = none) :
    ((oniceconnectionstatechange cfg s .failed).2.all
        (fun e => !reconnectEffect e) = true)
  ∧ ((oniceconnectionstatechange cfg s .disconnected).2.all
        (fun e => !reconnectEffect e) = true)
  ∧ ((onconnectionstatechange s).2.all
        (fun e => !reconnectEffect e) = true)
  ∧ ((disconnectedStrategyTimeout cfg s old).2.all
        (fun e => !reconnectEffect e) = true) := by
  have hrds : (runDisconnectedStrategy cfg s).2.all
      (fun e => !reconnectEffect e) = true := by
    unfold runDisconnectedStrategy
    split
    · rfl
    · split
      · rfl
      · rcases hbr : getBitRate { s with runninDisconnectionStrategy := true }
          with ⟨s2, old2⟩
        simp [hbr, reconnectEffect]
  refine ⟨?_, ?_, ?_, ?_⟩
  · unfold oniceconnectionstatechange
    rw [hf]
    simp [reconnectEffect]
  · unfold oniceconnectionstatechange
    rcases h : runDisconnectedStrategy cfg s with ⟨s2, effs2⟩
    rw [h] at hrds
    simp only at hrds
    simp [h, List.all_append, hrds, reconnectEffect]
    intro x hx
    have hx2 := List.all_eq_true.mp hrds x hx
    simpa [reconnectEffect] using hx2
  · unfold onconnectionstatechange
    cases hpc : s.rtcPeerConnection with
    | none => simp
    | some pc =>
      cases hcs : pc.connectionState <;> simp [hcs, hf, reconnectEffect]
  · unfold disconnectedStrategyTimeout
    simp [CallState.videoOn, CallState.audioOn, hls, hec,
      checkDifferenceAndRestart, jsLtInt]

/-- C2 witness at the concrete post-finish state. -/
theorem finished_is_terminal_witness :
    ((oniceconnectionstatechange defaultCfg stateFinished .failed).2.all
        (fun e => !reconnectEffect e) = true)
  ∧ ((oniceconnectionstatechange defaultCfg stateFinished .disconnected).2.all
        (fun e => !reconnectEffect e) = true)
  ∧ ((onconnectionstatechange stateFinished).2.all
        (fun e => !reconnectEffect e) = true)
  ∧ ((disconnectedStrategyTimeout defaultCfg stateFinished BitRateStats.zero).2.all
        (fun e => !reconnectEffect e) = true) :=
  finished_is_terminal defaultCfg stateFinished BitRateStats.zero rfl rfl rfl

/-- Field-level description of cleanState: flags and queue reset, controls
cleared, both handles dropped, while the finished flag, the room id, the
constraints and the stream handles are untouched. -/
theorem cleanState_spec (s : CallState) :
    (cleanState s).1.finished = s.finished
  ∧ (cleanState s).1.roomId = s.roomId
  ∧ (cleanState s).1.mediaStreamConstrains = s.mediaStreamConstrains
  ∧ (cleanState s).1.localStream = s.localStream
  ∧ (cleanState s).1.peerStream = s.peerStream
  ∧ (cleanState s).1.iceQueue = []
  ∧ (cleanState s).1.externalControls = none
  ∧ (cleanState s).1.dataChannel = none
  ∧ (cleanState s).1.rtcPeerConnection = none := by
  unfold cleanState
  cases hdc : s.dataChannel <;> cases hpc : s.rtcPeerConnection <;>
    simp [hdc, hpc]

/-- Field-level description of releaseTracks: both stream handles cleared,
one stopTrack effect per peer track then per local track, everything else
untouched. -/
theorem releaseTracks_spec (s : CallState) :
    (releaseTracks s).1.localStream = none
  ∧ (releaseTracks s).1.peerStream = none
  ∧ (releaseTracks s).1.finished = s.finished
  ∧ (releaseTracks s).1.roomId = s.roomId
  ∧ (releaseTracks s).1.mediaStreamConstrains = s.mediaStreamConstrains
  ∧ (releaseTracks s).1.iceQueue = s.iceQueue
  ∧ (releaseTracks s).1.externalControls = s.externalControls
  ∧ (releaseTracks s).1.dataChannel = s.dataChannel
  ∧ (releaseTracks s).1.rtcPeerConnection = s.rtcPeerConnection
  ∧ (releaseTracks s).2 = (s.peerStream.getD []).map Effect.stopTrack
      ++ (s.localStream.getD []).map Effect.stopTrack := by
  unfold releaseTracks
  cases hps : s.peerStream <;> cases hls : s.localStream <;>
    simp [hps, hls]

/-- C6: finish is idempotent and best-effort.  A call on an already
finished orchestrator returns immediately with no effect.  A first call
with no room id throws.  A first call with a room id returns normally for
every combination of signaling-call failures (the rejections of the
signaling finish and disconnect calls are swallowed): the returned state
is finished with room id, constraints, streams, handles, controls and ICE
queue cleared; the effects include the signaling finish and disconnect
calls for the saved room id and a stopTrack for every local and peer
track, and end with the finish event followed by the change event; and a
second finish call on the returned state is a no-op. -/
theorem finish_idempotent_best_effort (ff fd : Bool) (s : CallState)
    (rid : String) :
    (s.finished = true → finish ff fd s = .ok (s, []))
  ∧ (s.finished = false → s.roomId = none →
      finish ff fd s
        = .error "Could not disconnect from the room because the roomId is empty")
  ∧ (s.finished = false → s.roomId = some rid →
      ∃ s2 effs, finish ff fd s = .ok (s2, effs)
        ∧ s2.finished = true
        ∧ s2.roomId = none
        ∧ s2.mediaStreamConstrains = none
        ∧ s2.localStream = none
        ∧ s2.peerStream = none
        ∧ s2.rtcPeerConnection = none
        ∧ s2.dataChannel = none
        ∧ s2.externalControls = none
        ∧ s2.iceQueue = []
        ∧ Effect.sigFinish rid ∈ effs
        ∧ Effect.sigDisconnect rid ∈ effs
        ∧ (∀ t ∈ s.localStream.getD [], Effect.stopTrack t ∈ effs)
        ∧ (∀ t ∈ s.peerStream.getD [], Effect.stopTrack t ∈ effs)
        ∧ (∃ pre, effs = pre ++ [Effect.emitFinish, Effect.emitChange])
        ∧ (∀ ff2 fd2, finish ff2 fd2 s2 = .ok (s2, []))) := by
  refine ⟨?_, ?_, ?_⟩
  · intro hf
    unfold finish
    rw [hf]
    rfl
  · intro hf hr
    unfold finish
    rw [hf, hr]
    rfl
  · intro hf hr
    unfold finish
    rw [hf, hr]
    simp only []
    rcases hclean : cleanState { s with
      roomId := none, mediaStreamConstrains := none, finished := true }
      with ⟨sB, cleanEffs⟩
    rcases htracks : releaseTracks sB with ⟨sC, trackEffs⟩
    have hc := cleanState_spec { s with
      roomId := none, mediaStreamConstrains := none, finished := true }
    rw [hclean] at hc
    simp only at hc
    have ht := releaseTracks_spec sB
    rw [htracks] at ht
    simp only at ht
    obtain ⟨hcFin, hcRoom, hcCon, hcLocal, hcPeer, hcQueue, hcEc, hcDc, hcPc⟩ := hc
    obtain ⟨htLocal, htPeer, htFin, htRoom, htCon, htQueue, htEc, htDc, htPc, htEffs⟩ := ht
    refine ⟨sC, _, rfl, ?_, ?_, ?_, ?_, ?_, ?_, ?_, ?_, ?_, ?_, ?_, ?_, ?_, ?_, ?_⟩
    · rw [htFin, hcFin]
    · rw [htRoom, hcRoom]
    · rw [htCon, hcCon]
    · exact htLocal
    · exact htPeer
    · rw [htPc, hcPc]
    · rw [htDc, hcDc]
    · rw [htEc, hcEc]
    · rw [htQueue, hcQueue]
    · simp
    · simp
    · intro t htmem
      have : Effect.stopTrack t ∈ trackEffs := by
        rw [htEffs]
        refine List.mem_append.mpr (Or.inr ?_)
        rw [hcLocal]
        exact List.mem_map_of_mem _ htmem
      simp [this]
    · intro t htmem
      have : Effect.stopTrack t ∈ trackEffs := by
        rw [htEffs]
        refine List.mem_append.mpr (Or.inl ?_)
        rw [hcPeer]
        exact List.mem_map_of_mem _ htmem
      simp [this]
    · refine ⟨cleanEffs ++ trackEffs
        ++ (Effect.sigFinish rid :: (if ff then [Effect.logError] else []))
        ++ (Effect.sigDisconnect rid :: (if fd then [Effect.logError] else [])), ?_⟩
      simp
    · intro ff2 fd2
      have hfinC : sC.finished = true := by rw [htFin, hcFin]
      simp [finish, hfinC]

/-- C6 witness at a concrete active mid-call state with room r1, with the
signaling finish call rejecting and the disconnect call succeeding. -/
theorem finish_idempotent_best_effort_witness :
    stateActive.finished = false ∧ stateActive.roomId = some "r1"
  ∧ (∃ s2 effs, finish true false stateActive = .ok (s2, effs)
      ∧ s2.finished = true
      ∧ s2.roomId = none
      ∧ s2.mediaStreamConstrains = none
      ∧ s2.localStream = none
      ∧ s2.peerStream = none
      ∧ s2.rtcPeerConnection = none
      ∧ s2.dataChannel = none
      ∧ s2.externalControls = none
      ∧ s2.iceQueue = []
      ∧ Effect.sigFinish "r1" ∈ effs
      ∧ Effect.sigDisconnect "r1" ∈ effs
      ∧ (∀ t ∈ stateActive.localStream.getD [], Effect.stopTrack t ∈ effs)
      ∧ (∀ t ∈ stateActive.peerStream.getD [], Effect.stopTrack t ∈ effs)
      ∧ (∃ pre, effs = pre ++ [Effect.emitFinish, Effect.emitChange])
      ∧ (∀ ff2 fd2, finish ff2 fd2 s2 = .ok (s2, []))) :=
  ⟨rfl, rfl,
    (finish_idempotent_best_effort true false stateActive "r1").2.2 rfl rfl⟩

/-- A list is always a prefix of itself followed by anything. -/
theorem hasPrefixL_refl_append (p t : List Char) :
    hasPrefixL p (p ++ t) = true := by
  induction p with
  | nil => rfl
  | cons c cs ih => simp [hasPrefixL, ih]

/-- The greedy non-terminator run stops exactly at the first CR: takeWhile
keeps the run and dropWhile leaves the CR and what follows. -/
theorem takeDropWhile_notTerm (run rest : List Char)
    (h : run.all notTerm = true) :
    (run ++ '\r' :: rest).takeWhile notTerm = run
  ∧ (run ++ '\r' :: rest).dropWhile notTerm = '\r' :: rest := by
  induction run with
  | nil =>
    constructor <;> simp [List.takeWhile_cons, List.dropWhile_cons, notTerm]
  | cons c cs ih =>
    simp only [List.all_cons, Bool.and_eq_true] at h
    have hc := ih h.2
    constructor <;>
      simp [List.takeWhile_cons, List.dropWhile_cons, h.1, hc.1, hc.2]

/-- The regular expression pat ++ .* ++ CRLF matches at the head of
pat ++ run ++ CRLF ++ rest, capturing exactly run, whenever run contains
no line terminator. -/
theorem matchPatLine_at_head (pat run rest : List Char)
    (hrun : run.all notTerm = true) :
    matchPatLine pat (pat ++ (run ++ (crlf ++ rest))) = some (run, rest) := by
  unfold matchPatLine
  have hshape : pat ++ (run ++ (crlf ++ rest))
      = pat ++ (run ++ '\r' :: ('\n' :: rest)) := by
    simp [crlf]
  rw [hshape, hasPrefixL_refl_append]
  simp only [if_true]
  rw [List.drop_left]
  rw [(takeDropWhile_notTerm run ('\n' :: rest) hrun).1,
    (takeDropWhile_notTerm run ('\n' :: rest) hrun).2]
  simp [hasPrefixL, crlf]

/-- Leftmost-match replacement fires at the head when the expression
matches there: the match (pat, the run, the CRLF) is handed to the
replacement builder and the remainder is kept. -/
theorem replaceFirst_at_head (pat : List Char) (mk : List Char → List Char)
    (run rest : List Char) (hpat : pat ≠ [])
    (hrun : run.all notTerm = true) :
    replaceFirstMatch pat mk (pat ++ (run ++ (crlf ++ rest))) = mk run ++ rest := by
  have hm := matchPatLine_at_head pat run rest hrun
  cases pat with
  | nil => exact absurd rfl hpat
  | cons c cs =>
    have hshape : (c :: cs) ++ (run ++ (crlf ++ rest))
        = c :: (cs ++ (run ++ (crlf ++ rest))) := by simp
    rw [hshape] at hm ⊢
    rw [replaceFirstMatch]
    have hm2 : matchPatLine (c :: cs) (c :: (cs ++ (run ++ (crlf ++ rest))))
        = some (run, rest) := hm
    rw [hm2]

/-- Leftmost-match replacement skips a block p inside which no match
starts: the replacement happens entirely inside the continuation. -/
theorem replaceFirst_append_of_noMatch (pat : List Char)
    (mk : List Char → List Char) (p tail : List Char)
    (h : noMatchStartsIn pat p tail = true) :
    replaceFirstMatch pat mk (p ++ tail) = p ++ replaceFirstMatch pat mk tail := by
  induction p with
  | nil => simp
  | cons c cs ih =>
    unfold noMatchStartsIn at h
    rw [List.tails_cons] at h
    simp only [List.all_cons, Bool.and_eq_true] at h
    obtain ⟨h1, h2⟩ := h
    have hm : matchPatLine pat (c :: (cs ++ tail)) = none := by
      simp only [List.isEmpty, Bool.false_or] at h1
      have := Option.isNone_iff_eq_none.mp (by simpa using h1)
      simpa using this
    have ih2 := ih h2
    simp only [List.cons_append, replaceFirstMatch, List.append_eq, hm]
    rw [ih2]

/-- C4 counterexample: on an SDP with two media sections (two m= lines,
each followed by its own c=IN line) and no pre-existing bandwidth lines,
the rewrite with a 600 kbps limit produces exactly ONE b=AS: line and ONE
b=TIAS: line in the whole SDP, not one per media section — both regular
expressions are non-global, so the insertion happens only after the first
c=IN line and the second media section is left untouched. -/
theorem bandwidth_rewrite_not_per_section :
    countSub "m=".data twoSectionSDP = 2
  ∧ countSub (bPat "AS".data) (updateBandWidth (.limited 600) twoSectionSDP) = 1
  ∧ countSub (bPat "TIAS".data) (updateBandWidth (.limited 600) twoSectionSDP) = 1 := by
  refine ⟨by decide, by decide, by decide⟩

/-- C4 amended: the bandwidth rewrite touches only the FIRST occurrence,
not one per media section.  Part one: when bandwidth n is not unlimited
and the SDP contains no b=AS: and no b=TIAS: substring, exactly one
b=AS:n line and one b=TIAS:n*1000 line are inserted immediately after the
first matching c=IN line of the whole SDP (TIAS ending up before AS,
since AS is inserted first and TIAS is then inserted directly after the
c=IN line), and everything else — including every later media section —
is unchanged.  Part two: when a modifier line is already present, the
single-modifier rewrite replaces the first b=MOD:...CRLF occurrence in
place with the configured value, leaving the rest unchanged.  The
decomposition hypotheses locate the first match (no match starts inside
the prefix p). -/
theorem bandwidth_rewrites_first_occurrence :
    (∀ (p r q : List Char) (n : Nat),
      r.all notTerm = true →
      containsSub (bPat "AS".data) (p ++ (cinPat ++ (r ++ (crlf ++ q)))) = false →
      containsSub (bPat "TIAS".data)
          (p ++ (cinPat ++ (r ++ (crlf ++ (bLine "AS".data n ++ q))))) = false →
      noMatchStartsIn cinPat p (cinPat ++ (r ++ (crlf ++ q))) = true →
      noMatchStartsIn cinPat p
          (cinPat ++ (r ++ (crlf ++ (bLine "AS".data n ++ q)))) = true →
      updateBandWidth (.limited n) (p ++ (cinPat ++ (r ++ (crlf ++ q))))
        = p ++ (cinPat ++ (r ++ (crlf ++ (bLine "TIAS".data (n * 1000)
            ++ (bLine "AS".data n ++ q))))))
  ∧ (∀ (modifier : List Char) (bw : Nat) (p run q : List Char),
      run.all notTerm = true →
      containsSub (bPat modifier)
          (p ++ (bPat modifier ++ (run ++ (crlf ++ q)))) = true →
      noMatchStartsIn (bPat modifier) p
          (bPat modifier ++ (run ++ (crlf ++ q))) = true →
      updateBandwidthWithModifier modifier bw
          (p ++ (bPat modifier ++ (run ++ (crlf ++ q))))
        = p ++ (bLine modifier bw ++ q)) := by
  constructor
  · intro p r q n hr hAS hT hp0 hp1
    have hcin : cinPat ≠ [] := by decide
    have h1 : updateBandwidthWithModifier "AS".data n
        (p ++ (cinPat ++ (r ++ (crlf ++ q))))
        = p ++ (cinPat ++ (r ++ (crlf ++ (bLine "AS".data n ++ q)))) := by
      unfold updateBandwidthWithModifier
      rw [if_pos hAS]
      rw [replaceFirst_append_of_noMatch cinPat _ p _ hp0]
      rw [replaceFirst_at_head cinPat _ r q hcin hr]
      simp [List.append_assoc]
    have h2 : updateBandwidthWithModifier "TIAS".data (n * 1000)
        (p ++ (cinPat ++ (r ++ (crlf ++ (bLine "AS".data n ++ q)))))
        = p ++ (cinPat ++ (r ++ (crlf ++ (bLine "TIAS".data (n * 1000)
            ++ (bLine "AS".data n ++ q))))) := by
      unfold updateBandwidthWithModifier
      rw [if_pos hT]
      rw [replaceFirst_append_of_noMatch cinPat _ p _ hp1]
      rw [replaceFirst_at_head cinPat _ r (bLine "AS".data n ++ q) hcin hr]
      simp [List.append_assoc]
    show updateBandwidthWithModifier "TIAS".data (n * 1000)
        (updateBandwidthWithModifier "AS".data n
          (p ++ (cinPat ++ (r ++ (crlf ++ q))))) = _
    rw [h1, h2]
  · intro modifier bw p run q hrun hpresent hp
    have hbp : bPat modifier ≠ [] := by simp [bPat]
    unfold updateBandwidthWithModifier
    rw [if_neg (by simp [hpresent])]
    rw [replaceFirst_append_of_noMatch (bPat modifier) _ p _ hp]
    rw [replaceFirst_at_head (bPat modifier) _ run q hbp hrun]

/-- C4 amended witness: part one at a concrete two-section SDP at
bandwidth 600 (the suffix q contains the complete untouched second media
section with its own c=IN line); part two rewriting an existing b=AS:300
line in place to b=AS:600. -/
theorem bandwidth_rewrites_first_occurrence_witness :
    (updateBandWidth (.limited 600)
      ("v=0\r\nm=video 9 U\r\n".data ++ (cinPat ++ ("IP4 0.0.0.0".data
        ++ (crlf ++ "m=audio 9 U\r\nc=IN IP4 0.0.0.0\r\n".data))))
      = "v=0\r\nm=video 9 U\r\n".data ++ (cinPat ++ ("IP4 0.0.0.0".data
          ++ (crlf ++ (bLine "TIAS".data 600000
            ++ (bLine "AS".data 600
              ++ "m=audio 9 U\r\nc=IN IP4 0.0.0.0\r\n".data))))))
  ∧ (updateBandwidthWithModifier "AS".data 600
      ("v=0\r\nc=IN IP4 1.2.3.4\r\n".data ++ (bPat "AS".data
        ++ ("300".data ++ (crlf ++ "m=audio 9 U\r\n".data))))
      = "v=0\r\nc=IN IP4 1.2.3.4\r\n".data
          ++ (bLine "AS".data 600 ++ "m=audio 9 U\r\n".data)) :=
  ⟨bandwidth_rewrites_first_occurrence.1 "v=0\r\nm=video 9 U\r\n".data
    "IP4 0.0.0.0".data "m=audio 9 U\r\nc=IN IP4 0.0.0.0\r\n".data 600
    (by decide) (by decide) (by decide) (by decide) (by decide),
   bandwidth_rewrites_first_occurrence.2 "AS".data 600
    "v=0\r\nc=IN IP4 1.2.3.4\r\n".data "300".data "m=audio 9 U\r\n".data
    (by decide) (by decide) (by decide)⟩

end OlWebRTC
